import Mathlib

/-!
# Verification of the DeepCASE command-line driver

Shallow embedding of `deepcase/__main__.py`, the script that dispatches the
`sequence` / `train` / `manual` / `automatic` run modes of DeepCASE.

The driver is a straight-line script.  We embed it as a function
`run : Args → Env → Result` that returns the ordered trace of observable
actions (file reads, save/load operations, model constructions, `fit` calls,
the `show_sequences` report, the final `print`) together with the outcome
(normal completion, `exit()` in sequence mode, or a raised error).

External collaborators (`Preprocessor.csv`/`.txt`, `torch.load`,
`ContextBuilder.load`, `Interpreter.load`, CUDA availability and the
`NO_EVENT` sentinel exposed by the preprocessor) are not part of the source
under verification; they appear as opaque inputs bundled in `Env`.  Tensors
are modelled by their element lists; `.to(device)` is a device move that
leaves values unchanged and is recorded as a trace step.  Python floats
(`timeout`, `delta`, `confidence`, `epsilon`, learning rate, teach ratio)
are modelled as exact rationals, since the driver only passes them along.
-/

namespace DeepCASE

/-- Run modes accepted by the positional `mode` argument
(`parser.add_argument('mode', choices=('sequence','train','manual','automatic'))`). -/
inductive Mode
  | sequence
  | train
  | manual
  | automatic
  deriving DecidableEq

/-- The parsed command-line arguments (`args = parser.parse_args()`).
Options `argparse` defaults to `None` are `Option String` set to `none`;
`--events` has string default `'auto'`, modelled as `none`, and an explicit
integer value `n` as `some n` (the driver applies `int(...)` to it). -/
structure Args where
  mode : Mode
  csv : Option String
  txt : Option String
  events : Option Nat
  length : Nat
  timeout : Rat
  save_sequences : Option String
  load_sequences : Option String
  hidden : Nat
  delta : Rat
  save_builder : Option String
  load_builder : Option String
  confidence : Rat
  epsilon : Rat
  min_samples : Nat
  save_interpreter : Option String
  load_interpreter : Option String
  epochs : Nat
  batch : Nat
  device : String
  deriving DecidableEq

/-- The `argparse` defaults of `deepcase/__main__.py` (lines 26-69): every
optional argument left unsupplied takes the value recorded here. -/
def parserDefaults (mode : Mode) : Args :=
  { mode := mode
    csv := none
    txt := none
    events := none
    length := 10
    timeout := 86400
    save_sequences := none
    load_sequences := none
    hidden := 128
    delta := mkRat 1 10
    save_builder := none
    load_builder := none
    confidence := mkRat 1 5
    epsilon := mkRat 1 10
    min_samples := 5
    save_interpreter := none
    load_interpreter := none
    epochs := 10
    batch := 128
    device := "auto" }

/-- The `(events, context, label, mapping)` quadruple produced by
`preprocessor.csv` / `preprocessor.txt` or restored by `torch.load`:
target event ids, their context windows, ground-truth labels, and the
event-type vocabulary (`len(mapping)` is the number of distinct events). -/
structure SeqData where
  events : List Nat
  context : List (List Nat)
  label : List Int
  mapping : List String
  deriving DecidableEq

/-- Arguments of a `context_builder.fit(...)` call (lines 159-167).
`y` holds the values of `events.reshape(-1, 1)`, i.e. the target events. -/
structure BuilderFit where
  X : List (List Nat)
  y : List Nat
  epochs : Nat
  batch_size : Nat
  learning_rate : Rat
  teach : Rat
  deriving DecidableEq

/-- State of a `ContextBuilder` object: its construction parameters
(lines 145-153), the device it was moved to, and the `fit` call applied to
it, if any. -/
structure ContextBuilderState where
  input_size : Nat
  output_size : Nat
  hidden_size : Nat
  num_layers : Nat
  max_length : Nat
  bidirectional : Bool
  lstm : Bool
  device : String
  fit : Option BuilderFit
  deriving DecidableEq

/-- Arguments of an `interpreter.fit(...)` call (lines 194-201).
`y` holds the values of `events.reshape(-1, 1)`; `score` the values of
`torch.zeros((events.shape[0], 1), device=args.device) - 4`. -/
structure InterpFit where
  X : List (List Nat)
  y : List Nat
  score : List Int
  iterations : Nat
  batch_size : Nat
  deriving DecidableEq

/-- State of an `Interpreter` object: its construction parameters
(lines 182-188) and the `fit` call applied to it, if any. -/
structure InterpreterState where
  builder : ContextBuilderState
  features : Nat
  eps : Rat
  min_samples : Nat
  threshold : Rat
  fit : Option InterpFit
  deriving DecidableEq

/-- One observable action of the driver, in execution order. -/
inductive Step
  | constructPreprocessor (length : Nat) (timeout : Rat)
  | readCSV (path : String)
  | readTXT (path : String)
  | saveSequences (path : String) (d : SeqData)
  | loadSequences (path : String)
  | showSequences (context : List (List Nat)) (events : List Nat)
      (label : List Int) (mapping : List String) (noEvent : Int)
  | castTensors (device : String)
  | constructBuilder (b : ContextBuilderState)
  | fitBuilder (f : BuilderFit)
  | saveBuilder (path : String) (b : ContextBuilderState)
  | loadBuilder (path : String)
  | constructInterpreter (i : InterpreterState)
  | fitInterpreter (f : InterpFit)
  | saveInterpreter (path : String) (i : InterpreterState)
  | loadInterpreter (path : String)
  | printLine (s : String)
  deriving DecidableEq

/-- How the script ends: fell off the end, called `exit()` (sequence mode),
raised `ValueError`, or raised `NameError` on an undefined variable (the
script only defines `events`/`context`/`label`/`mapping` inside the
`if args.csv / elif args.txt` branches). -/
inductive Outcome
  | finished
  | exited
  | valueError (msg : String)
  | nameError (name : String)
  deriving DecidableEq

/-- Result of one driver run: the ordered action trace, the outcome, and the
values the script's variables hold when it ends (used to state which state a
later consumer would see). -/
structure Result where
  trace : List Step
  outcome : Outcome
  finalData : Option SeqData
  finalBuilder : Option ContextBuilderState
  finalInterpreter : Option InterpreterState
  deriving DecidableEq

/-- The external collaborators the driver calls into, abstracted at their
interface: what the preprocessor returns for a given file, what the three
`load` operations restore, whether CUDA is available, and the preprocessor's
`NO_EVENT` sentinel. -/
structure Env where
  csvRead : String → SeqData
  txtRead : String → SeqData
  loadSeq : String → SeqData
  cudaAvailable : Bool
  noEvent : Int
  loadBuilderF : String → String → ContextBuilderState
  loadInterpF : String → ContextBuilderState → InterpreterState

/-- Python truthiness of an optional string argument (`if args.save_sequences:`
is false both for `None` and for the empty string): returns the string when
truthy. -/
def truthyStr : Option String → Option String
  | none => none
  | some s => if s = "" then none else some s

/-- Device resolution (lines 127-128): `"auto"` becomes `"cuda"` when
available, else `"cpu"`; any other value is kept. -/
def resolveDevice (args : Args) (env : Env) : String :=
  if args.device = "auto" then (if env.cudaAvailable then "cuda" else "cpu")
  else args.device

/-- Number of events the models are sized for (lines 131-134):
`len(mapping)` when `--events` was left at `'auto'`, else the supplied
integer. -/
def nEventsOf (args : Args) (d : SeqData) : Nat :=
  match args.events with
  | none => d.mapping.length
  | some n => n

/-- The `ContextBuilder(...)` constructed at lines 145-153, already moved to
`device` by `.to(args.device)`. -/
def builderInit (args : Args) (nEvents : Nat) (device : String) : ContextBuilderState :=
  { input_size := nEvents
    output_size := nEvents
    hidden_size := args.hidden
    num_layers := 1
    max_length := args.length
    bidirectional := false
    lstm := false
    device := device
    fit := none }

/-- The argument record of the `context_builder.fit` call at lines 159-167. -/
def builderFitOf (args : Args) (d : SeqData) : BuilderFit :=
  { X := d.context
    y := d.events
    epochs := args.epochs
    batch_size := args.batch
    learning_rate := mkRat 1 100
    teach := mkRat 1 2 }

/-- The builder the script's `context_builder` variable holds at line 170
(just before the save/load block): fitted in train mode, untouched otherwise. -/
def freshBuilder (args : Args) (nEvents : Nat) (device : String) (d : SeqData) :
    ContextBuilderState :=
  if args.mode = Mode.train then
    { builderInit args nEvents device with fit := some (builderFitOf args d) }
  else builderInit args nEvents device

/-- `torch.zeros((n, 1), device=...) - 4`: an `n`-entry column of zeros with
4 subtracted from every entry. -/
def scoreInit (n : Nat) : List Int :=
  (List.replicate n (0 : Int)).map (fun z => z - 4)

/-- The argument record of the `interpreter.fit` call at lines 194-201. -/
def interpFitOf (_args : Args) (d : SeqData) : InterpFit :=
  { X := d.context
    y := d.events
    score := scoreInit d.events.length
    iterations := 100
    batch_size := 1024 }

/-- The `Interpreter(...)` constructed at lines 182-188 around the current
`context_builder`. -/
def interpInit (args : Args) (builder : ContextBuilderState) (nEvents : Nat) :
    InterpreterState :=
  { builder := builder
    features := nEvents
    eps := args.epsilon
    min_samples := args.min_samples
    threshold := args.confidence
    fit := none }

/-- The interpreter the script's `interpreter` variable holds at line 204
(just before the save/load block): fitted in train mode, untouched otherwise. -/
def freshInterp (args : Args) (builder : ContextBuilderState) (nEvents : Nat)
    (d : SeqData) : InterpreterState :=
  if args.mode = Mode.train then
    { interpInit args builder nEvents with fit := some (interpFitOf args d) }
  else interpInit args builder nEvents

/-- Section A of the script (lines 79-114): create the preprocessor, enforce
the `--csv`/`--txt` exclusivity check, read the input file, save the
sequences, load the sequences.  Returns an early `Result` when the script
raises there, else the trace so far together with the value of the
`(events, context, label, mapping)` variables (`none` when they were never
assigned). -/
def seqPhase (args : Args) (env : Env) : Result ⊕ (List Step × Option SeqData) :=
  let tr0 : List Step := [Step.constructPreprocessor args.length args.timeout]
  if args.csv.isSome && args.txt.isSome then
    Sum.inl { trace := tr0
              outcome := Outcome.valueError "Please specify EITHER --csv OR --txt."
              finalData := none, finalBuilder := none, finalInterpreter := none }
  else
    let readPart : List Step × Option SeqData :=
      match truthyStr args.csv with
      | some p => ([Step.readCSV p], some (env.csvRead p))
      | none =>
        match truthyStr args.txt with
        | some p => ([Step.readTXT p], some (env.txtRead p))
        | none => ([], none)
    match truthyStr args.save_sequences, readPart.2 with
    | some _, none =>
      Sum.inl { trace := tr0 ++ readPart.1
                outcome := Outcome.nameError "events"
                finalData := none, finalBuilder := none, finalInterpreter := none }
    | saveOpt, _ =>
      let savePart : List Step :=
        match saveOpt, readPart.2 with
        | some p, some d => [Step.saveSequences p d]
        | _, _ => []
      let loadPart : List Step × Option SeqData :=
        match truthyStr args.load_sequences with
        | some p => ([Step.loadSequences p], some (env.loadSeq p))
        | none => ([], readPart.2)
      Sum.inr (tr0 ++ readPart.1 ++ savePart ++ loadPart.1, loadPart.2)

/-- Trace contribution of the `context_builder.fit` call (lines 156-167):
present exactly in train mode. -/
def fitBuilderPiece (args : Args) (d : SeqData) : List Step :=
  if args.mode = Mode.train then [Step.fitBuilder (builderFitOf args d)] else []

/-- Trace contribution of `context_builder.save` (lines 170-171). -/
def saveBuilderPiece (args : Args) (b : ContextBuilderState) : List Step :=
  match truthyStr args.save_builder with
  | some p => [Step.saveBuilder p b]
  | none => []

/-- Trace contribution of `ContextBuilder.load` (lines 174-175). -/
def loadBuilderPiece (args : Args) : List Step :=
  match truthyStr args.load_builder with
  | some p => [Step.loadBuilder p]
  | none => []

/-- Trace contribution of the `interpreter.fit` call (lines 191-201):
present exactly in train mode. -/
def fitInterpPiece (args : Args) (d : SeqData) : List Step :=
  if args.mode = Mode.train then [Step.fitInterpreter (interpFitOf args d)] else []

/-- Trace contribution of `interpreter.save` (lines 204-205). -/
def saveInterpPiece (args : Args) (i : InterpreterState) : List Step :=
  match truthyStr args.save_interpreter with
  | some p => [Step.saveInterpreter p i]
  | none => []

/-- Trace contribution of `Interpreter.load` (lines 208-212). -/
def loadInterpPiece (args : Args) : List Step :=
  match truthyStr args.load_interpreter with
  | some p => [Step.loadInterpreter p]
  | none => []

/-- Trace contribution of the manual/automatic sections (lines 218-228):
the manual branch is a bare `pass`; the automatic branch only prints. -/
def autoPiece (args : Args) : List Step :=
  if args.mode = Mode.automatic then [Step.printLine "SEMI-AUTOMATIC mode"] else []

/-- The builder the script's `context_builder` variable holds after the
save/load block (line 176 onward): the loaded one when `--load-builder` is
truthy, else the freshly built (and, in train mode, fitted) one. -/
def usedBuilder (args : Args) (env : Env) (nEvents : Nat) (device : String)
    (d : SeqData) : ContextBuilderState :=
  match truthyStr args.load_builder with
  | some p => env.loadBuilderF p device
  | none => freshBuilder args nEvents device d

/-- The interpreter the script's `interpreter` variable holds after the
save/load block (line 213 onward): the loaded one when `--load-interpreter`
is truthy (restored around the current builder), else the freshly built
(and, in train mode, fitted) one. -/
def usedInterp (args : Args) (env : Env) (builder : ContextBuilderState)
    (nEvents : Nat) (d : SeqData) : InterpreterState :=
  match truthyStr args.load_interpreter with
  | some p => env.loadInterpF p builder
  | none => freshInterp args builder nEvents d

/-- Sections B-E of the script (lines 127-228): device and `--events`
resolution, tensor casts, `ContextBuilder` construction/fit/save/load,
`Interpreter` construction/fit/save/load, then the manual branch (a bare
`pass`) and the automatic branch (a bare `print`).  `data` is the value of
the sequence variables after section A; the returned trace is the suffix
this phase adds. -/
def modelPhase (args : Args) (env : Env) (data : Option SeqData) : Result :=
  let device := resolveDevice args env
  match data with
  | none =>
    match args.events with
    | none =>
      { trace := [], outcome := Outcome.nameError "mapping"
        finalData := none, finalBuilder := none, finalInterpreter := none }
    | some _ =>
      { trace := [], outcome := Outcome.nameError "events"
        finalData := none, finalBuilder := none, finalInterpreter := none }
  | some d =>
    let nEvents := nEventsOf args d
    let builder := usedBuilder args env nEvents device d
    let interp := usedInterp args env builder nEvents d
    { trace :=
        [Step.castTensors device, Step.constructBuilder (builderInit args nEvents device)]
        ++ fitBuilderPiece args d
        ++ saveBuilderPiece args (freshBuilder args nEvents device d)
        ++ loadBuilderPiece args
        ++ [Step.constructInterpreter (interpInit args builder nEvents)]
        ++ fitInterpPiece args d
        ++ saveInterpPiece args (freshInterp args builder nEvents d)
        ++ loadInterpPiece args
        ++ autoPiece args
      outcome := Outcome.finished
      finalData := some d
      finalBuilder := some builder
      finalInterpreter := some interp }

/-- The whole driver script: section A, then the sequence-mode report and
`exit()` (lines 117-120), else sections B-E. -/
def run (args : Args) (env : Env) : Result :=
  match seqPhase args env with
  | Sum.inl r => r
  | Sum.inr (tr, data) =>
    if args.mode = Mode.sequence then
      match data with
      | none =>
        { trace := tr, outcome := Outcome.nameError "context"
          finalData := none, finalBuilder := none, finalInterpreter := none }
      | some d =>
        { trace := tr ++ [Step.showSequences d.context d.events d.label d.mapping env.noEvent]
          outcome := Outcome.exited
          finalData := some d, finalBuilder := none, finalInterpreter := none }
    else
      let r := modelPhase args env data
      { trace := tr ++ r.trace
        outcome := r.outcome
        finalData := r.finalData
        finalBuilder := r.finalBuilder
        finalInterpreter := r.finalInterpreter }

/-- Steps that construct, train, save or load a `ContextBuilder` or an
`Interpreter`. -/
def isModelStep : Step → Bool
  | Step.constructBuilder _ => true
  | Step.fitBuilder _ => true
  | Step.saveBuilder _ _ => true
  | Step.loadBuilder _ => true
  | Step.constructInterpreter _ => true
  | Step.fitInterpreter _ => true
  | Step.saveInterpreter _ _ => true
  | Step.loadInterpreter _ => true
  | _ => false

/-- Steps that read a file (CSV/TXT ingestion or a sequence load). -/
def isReadStep : Step → Bool
  | Step.readCSV _ => true
  | Step.readTXT _ => true
  | Step.loadSequences _ => true
  | _ => false

/-- Steps that fit a model. -/
def isFitStep : Step → Bool
  | Step.fitBuilder _ => true
  | Step.fitInterpreter _ => true
  | _ => false

/-- The subsequence of `fit` calls of a trace, in order. -/
def fitSteps (t : List Step) : List Step :=
  t.filter fun s => isFitStep s

/-- Concrete sequence data, standing for the output of `preprocessor.csv`. -/
def dataA : SeqData :=
  { events := [1, 2, 3]
    context := [[0, 1], [1, 2], [2, 3]]
    label := [0, 0, 1]
    mapping := ["a", "b", "c", "d"] }

/-- Concrete sequence data, standing for the output of `preprocessor.txt`. -/
def dataB : SeqData :=
  { events := [5], context := [[4]], label := [1], mapping := ["x"] }

/-- Concrete sequence data, standing for the content of a saved-sequences file. -/
def dataL : SeqData :=
  { events := [7, 8], context := [[6], [7]], label := [0, 1], mapping := ["p", "q", "r"] }

/-- Concrete builder state, standing for the content of a saved-builder file. -/
def builderL : ContextBuilderState :=
  { input_size := 3, output_size := 3, hidden_size := 64, num_layers := 1
    max_length := 5, bidirectional := false, lstm := false, device := "cpu", fit := none }

/-- Concrete environment for the example runs: fixed collaborator outputs,
no CUDA, `NO_EVENT = -1337`. -/
def envEx : Env :=
  { csvRead := fun _ => dataA
    txtRead := fun _ => dataB
    loadSeq := fun _ => dataL
    cudaAvailable := false
    noEvent := -1337
    loadBuilderF := fun _ dev => { builderL with device := dev }
    loadInterpF := fun _ b =>
      { builder := b, features := 3, eps := mkRat 1 2, min_samples := 2
        threshold := mkRat 3 10, fit := none } }

/-- Invariant of section A, by case: an early exit has a model-free trace
and a non-`finished` outcome; a continuation hands over a model-free trace. -/
def PhaseOK : Result ⊕ (List Step × Option SeqData) → Prop
  | Sum.inl r => (∀ s ∈ r.trace, isModelStep s = false) ∧ r.outcome ≠ Outcome.finished
  | Sum.inr (tr, _) => ∀ s ∈ tr, isModelStep s = false

/-- Section A never constructs, trains, saves or loads a model, and never
ends the script normally on its own. -/
theorem seqPhase_ok (args : Args) (env : Env) : PhaseOK (seqPhase args env) := by
  by_cases hb : (args.csv.isSome && args.txt.isSome) = true <;>
  rcases hc : truthyStr args.csv with _ | p <;>
  rcases ht : truthyStr args.txt with _ | q <;>
  rcases hs : truthyStr args.save_sequences with _ | w <;>
  rcases hl : truthyStr args.load_sequences with _ | v <;>
  simp [seqPhase, PhaseOK, hb, hc, ht, hs, hl, isModelStep, List.forall_mem_cons]

/-- Which data section A hands over: the loaded sequences when
`--load-sequences` is truthy, else what was read from `--csv` / `--txt`,
else nothing; and the save step (when present, with input available from
`--csv`) stores the freshly read data. -/
def PhaseData (args : Args) (env : Env) :
    Result ⊕ (List Step × Option SeqData) → Prop
  | Sum.inl _ => True
  | Sum.inr (tr, data) =>
    (∀ p, truthyStr args.load_sequences = some p → data = some (env.loadSeq p)) ∧
    (truthyStr args.load_sequences = none →
      (∀ p, truthyStr args.csv = some p → data = some (env.csvRead p)) ∧
      (truthyStr args.csv = none →
        (∀ p, truthyStr args.txt = some p → data = some (env.txtRead p)) ∧
        (truthyStr args.txt = none → data = none))) ∧
    (∀ w c, truthyStr args.save_sequences = some w → truthyStr args.csv = some c →
      Step.saveSequences w (env.csvRead c) ∈ tr)

/-- Section A's hand-over satisfies `PhaseData`. -/
theorem seqPhase_data (args : Args) (env : Env) :
    PhaseData args env (seqPhase args env) := by
  by_cases hb : (args.csv.isSome && args.txt.isSome) = true <;>
  rcases hc : truthyStr args.csv with _ | p <;>
  rcases ht : truthyStr args.txt with _ | q <;>
  rcases hs : truthyStr args.save_sequences with _ | w <;>
  rcases hl : truthyStr args.load_sequences with _ | v <;>
  simp [seqPhase, PhaseData, hb, hc, ht, hs, hl]

/-- Fit steps are model steps. -/
theorem isModelStep_of_isFitStep (s : Step) (h : isFitStep s = true) :
    isModelStep s = true := by
  cases s <;> simp_all [isFitStep, isModelStep]

/-- Membership in the builder-fit piece. -/
theorem mem_fitBuilderPiece (args : Args) (d : SeqData) (s : Step) :
    s ∈ fitBuilderPiece args d ↔
      args.mode = Mode.train ∧ s = Step.fitBuilder (builderFitOf args d) := by
  unfold fitBuilderPiece; split <;> simp_all

/-- Membership in the builder-save piece. -/
theorem mem_saveBuilderPiece (args : Args) (b : ContextBuilderState) (s : Step) :
    s ∈ saveBuilderPiece args b ↔
      ∃ p, truthyStr args.save_builder = some p ∧ s = Step.saveBuilder p b := by
  unfold saveBuilderPiece; split <;> simp_all

/-- Membership in the builder-load piece. -/
theorem mem_loadBuilderPiece (args : Args) (s : Step) :
    s ∈ loadBuilderPiece args ↔
      ∃ p, truthyStr args.load_builder = some p ∧ s = Step.loadBuilder p := by
  unfold loadBuilderPiece; split <;> simp_all

/-- Membership in the interpreter-fit piece. -/
theorem mem_fitInterpPiece (args : Args) (d : SeqData) (s : Step) :
    s ∈ fitInterpPiece args d ↔
      args.mode = Mode.train ∧ s = Step.fitInterpreter (interpFitOf args d) := by
  unfold fitInterpPiece; split <;> simp_all

/-- Membership in the interpreter-save piece. -/
theorem mem_saveInterpPiece (args : Args) (i : InterpreterState) (s : Step) :
    s ∈ saveInterpPiece args i ↔
      ∃ p, truthyStr args.save_interpreter = some p ∧ s = Step.saveInterpreter p i := by
  unfold saveInterpPiece; split <;> simp_all

/-- Membership in the interpreter-load piece. -/
theorem mem_loadInterpPiece (args : Args) (s : Step) :
    s ∈ loadInterpPiece args ↔
      ∃ p, truthyStr args.load_interpreter = some p ∧ s = Step.loadInterpreter p := by
  unfold loadInterpPiece; split <;> simp_all

/-- Membership in the manual/automatic piece. -/
theorem mem_autoPiece (args : Args) (s : Step) :
    s ∈ autoPiece args ↔
      args.mode = Mode.automatic ∧ s = Step.printLine "SEMI-AUTOMATIC mode" := by
  unfold autoPiece; split <;> simp_all

/-- `fitSteps` distributes over concatenation. -/
theorem fitSteps_append (a b : List Step) :
    fitSteps (a ++ b) = fitSteps a ++ fitSteps b := by
  unfold fitSteps; exact List.filter_append a b

/-- A model-free trace contains no fit steps. -/
theorem fitSteps_eq_nil_of_no_model (tr : List Step)
    (h : ∀ s ∈ tr, isModelStep s = false) : fitSteps tr = [] := by
  unfold fitSteps
  rw [List.filter_eq_nil_iff]
  intro s hs hfit
  have := isModelStep_of_isFitStep s hfit
  rw [h s hs] at this
  cases this

/-- The builder-save piece contains no fit steps. -/
theorem fitSteps_saveBuilderPiece (args : Args) (b : ContextBuilderState) :
    fitSteps (saveBuilderPiece args b) = [] := by
  unfold saveBuilderPiece; split <;> rfl

/-- The builder-load piece contains no fit steps. -/
theorem fitSteps_loadBuilderPiece (args : Args) :
    fitSteps (loadBuilderPiece args) = [] := by
  unfold loadBuilderPiece; split <;> rfl

/-- The interpreter-save piece contains no fit steps. -/
theorem fitSteps_saveInterpPiece (args : Args) (i : InterpreterState) :
    fitSteps (saveInterpPiece args i) = [] := by
  unfold saveInterpPiece; split <;> rfl

/-- The interpreter-load piece contains no fit steps. -/
theorem fitSteps_loadInterpPiece (args : Args) :
    fitSteps (loadInterpPiece args) = [] := by
  unfold loadInterpPiece; split <;> rfl

/-- The manual/automatic piece contains no fit steps. -/
theorem fitSteps_autoPiece (args : Args) : fitSteps (autoPiece args) = [] := by
  unfold autoPiece; split <;> rfl

/-- In train mode, the fit calls of sections B-E are exactly the builder fit
followed by the interpreter fit, both on the data at hand. -/
theorem fitSteps_modelPhase_train (args : Args) (env : Env) (d : SeqData)
    (hm : args.mode = Mode.train) :
    fitSteps (modelPhase args env (some d)).trace =
      [Step.fitBuilder (builderFitOf args d), Step.fitInterpreter (interpFitOf args d)] := by
  simp only [modelPhase]
  rw [fitSteps_append, fitSteps_append, fitSteps_append, fitSteps_append,
    fitSteps_append, fitSteps_append, fitSteps_append, fitSteps_append,
    fitSteps_saveBuilderPiece, fitSteps_loadBuilderPiece, fitSteps_saveInterpPiece,
    fitSteps_loadInterpPiece, fitSteps_autoPiece]
  simp [fitSteps, fitBuilderPiece, fitInterpPiece, hm, isFitStep]

/-- In non-train mode, sections B-E contain no fit call at all. -/
theorem fitSteps_modelPhase_not_train (args : Args) (env : Env) (d : SeqData)
    (hm : args.mode ≠ Mode.train) :
    fitSteps (modelPhase args env (some d)).trace = [] := by
  simp only [modelPhase]
  rw [fitSteps_append, fitSteps_append, fitSteps_append, fitSteps_append,
    fitSteps_append, fitSteps_append, fitSteps_append, fitSteps_append,
    fitSteps_saveBuilderPiece, fitSteps_loadBuilderPiece, fitSteps_saveInterpPiece,
    fitSteps_loadInterpPiece, fitSteps_autoPiece]
  simp [fitSteps, fitBuilderPiece, fitInterpPiece, hm, isFitStep]

/-- Concrete train-mode invocation: `deepcase train --csv alerts.csv`. -/
def argsTrainCsv : Args := { parserDefaults Mode.train with csv := some "alerts.csv" }

/-- C1: in train mode the driver fits the ContextBuilder on
`(context, events)` strictly before it fits the Interpreter on the same
`(context, events)`: the subsequence of fit calls of any finished train run
is exactly `[ContextBuilder.fit, Interpreter.fit]`, both applied to the
data `d` produced by section A. -/
theorem train_fits_builder_before_interpreter (args : Args) (env : Env)
    (hm : args.mode = Mode.train)
    (hf : (run args env).outcome = Outcome.finished) :
    ∃ d : SeqData,
      fitSteps (run args env).trace =
        [Step.fitBuilder (builderFitOf args d), Step.fitInterpreter (interpFitOf args d)] := by
  have hok := seqPhase_ok args env
  cases hsp : seqPhase args env with
  | inl r =>
    rw [hsp] at hok
    simp only [run, hsp] at hf
    exact absurd hf hok.2
  | inr v =>
    obtain ⟨tr, data⟩ := v
    rw [hsp] at hok
    have hmode : ¬ args.mode = Mode.sequence := by rw [hm]; simp
    simp only [run, hsp, hmode, if_neg, ite_false] at hf ⊢
    rcases data with _ | d
    · exfalso
      rcases he : args.events with _ | n <;> simp [modelPhase, he] at hf
    · refine ⟨d, ?_⟩
      rw [fitSteps_append, fitSteps_eq_nil_of_no_model tr hok,
        fitSteps_modelPhase_train args env d hm, List.nil_append]

/-- C1 at a concrete input: `deepcase train --csv alerts.csv` against the
example environment fits builder then interpreter on the read data. -/
theorem train_fits_builder_before_interpreter_witness :
    ∃ d : SeqData,
      fitSteps (run argsTrainCsv envEx).trace =
        [Step.fitBuilder (builderFitOf argsTrainCsv d),
         Step.fitInterpreter (interpFitOf argsTrainCsv d)] :=
  train_fits_builder_before_interpreter argsTrainCsv envEx rfl (by decide)

/-- C2: in sequence mode the driver only preprocesses and reports: no step
of any sequence-mode run constructs, trains, saves or loads a
ContextBuilder or an Interpreter. -/
theorem sequence_mode_no_model_steps (args : Args) (env : Env)
    (hm : args.mode = Mode.sequence) :
    ∀ s ∈ (run args env).trace, isModelStep s = false := by
  have hok := seqPhase_ok args env
  cases hsp : seqPhase args env with
  | inl r =>
    rw [hsp] at hok
    simp only [run, hsp]
    exact hok.1
  | inr v =>
    obtain ⟨tr, data⟩ := v
    rw [hsp] at hok
    simp only [run, hsp, hm, ite_true]
    rcases data with _ | d
    · exact hok
    · intro s hs
      simp only [List.mem_append, List.mem_singleton] at hs
      rcases hs with hs | rfl
      · exact hok s hs
      · rfl

/-- C2 at a concrete input: `deepcase sequence --csv alerts.csv` produces a
model-free trace. -/
theorem sequence_mode_no_model_steps_witness :
    ((run { parserDefaults Mode.sequence with csv := some "alerts.csv" } envEx).trace.all
      fun s => !isModelStep s) = true := by
  have h := sequence_mode_no_model_steps
    { parserDefaults Mode.sequence with csv := some "alerts.csv" } envEx rfl
  exact List.all_eq_true.mpr fun s hs => by simp [h s hs]

/-- Concrete manual-mode invocation without any training or loading:
`deepcase manual --csv alerts.csv`. -/
def argsManualCsv : Args := { parserDefaults Mode.manual with csv := some "alerts.csv" }

/-- Concrete automatic-mode invocation without any training or loading:
`deepcase automatic --csv alerts.csv`. -/
def argsAutoCsv : Args := { parserDefaults Mode.automatic with csv := some "alerts.csv" }

/-- C3 (against the claim): running `manual` or `automatic` mode with neither
training performed nor saved state loaded does NOT raise: both runs end with
outcome `finished`, holding an interpreter that was never fitted around a
builder that was never fitted (the manual branch is a bare `pass`, lines
218-221, and the automatic branch only prints, lines 227-228). -/
theorem manual_automatic_unfitted_no_raise :
    (run argsManualCsv envEx).outcome = Outcome.finished ∧
    (run argsAutoCsv envEx).outcome = Outcome.finished ∧
    (run argsManualCsv envEx).finalInterpreter =
      some (interpInit argsManualCsv (builderInit argsManualCsv 4 "cpu") 4) ∧
    (run argsAutoCsv envEx).finalInterpreter =
      some (interpInit argsAutoCsv (builderInit argsAutoCsv 4 "cpu") 4) := by
  refine ⟨by decide, by decide, by decide, by decide⟩

/-- Concrete automatic-mode invocation with both models loaded:
`deepcase automatic --csv alerts.csv --load-builder b.pt --load-interpreter i.pt`. -/
def argsAutoLoaded : Args :=
  { parserDefaults Mode.automatic with
      csv := some "alerts.csv", load_builder := some "b.pt",
      load_interpreter := some "i.pt" }

/-- C4 (against the claim): in automatic mode the driver applies no label to
any point, whatever its confidence: even with a loaded builder and
interpreter the whole automatic branch is the single
`print("SEMI-AUTOMATIC mode")` statement — the run finishes with that print
as its last step and contains no fit or labeling action after the loads. -/
theorem automatic_mode_only_prints :
    (run argsAutoLoaded envEx).outcome = Outcome.finished ∧
    (run argsAutoLoaded envEx).trace.getLast? =
      some (Step.printLine "SEMI-AUTOMATIC mode") ∧
    autoPiece argsAutoLoaded = [Step.printLine "SEMI-AUTOMATIC mode"] ∧
    fitSteps (run argsAutoLoaded envEx).trace = [] := by
  refine ⟨by decide, by decide, by decide, by decide⟩

/-- Same invocation as `argsTrainCsv` with `--delta 9`. -/
def argsDelta9 : Args := { argsTrainCsv with delta := 9 }

/-- C5 counterexample: `delta` is not a value consumed by the core — a train
run with `--delta 9` is observably identical (same trace, same outcome, same
final states) to the same run with the default `delta = 0.1`, so the default
`delta` never reaches any core component. -/
theorem delta_not_consumed_cex :
    argsDelta9.delta ≠ argsTrainCsv.delta ∧
    run argsDelta9 envEx = run argsTrainCsv envEx := by
  refine ⟨by decide, rfl⟩

/-- C5 amended: when the corresponding option is not supplied the parser
defaults are exactly length 10, timeout 86400, hidden 128, delta 0.1,
confidence 0.2, epsilon 0.1, min_samples 5, epochs 10 and batch 128; all of
them are consumed by the core except `delta`, which is recognized by the
parser but never forwarded — every run is invariant under changes to it. -/
theorem parser_defaults_and_delta_unused :
    (∀ m : Mode,
      (parserDefaults m).length = 10 ∧ (parserDefaults m).timeout = 86400 ∧
      (parserDefaults m).hidden = 128 ∧ (parserDefaults m).delta = mkRat 1 10 ∧
      (parserDefaults m).confidence = mkRat 1 5 ∧ (parserDefaults m).epsilon = mkRat 1 10 ∧
      (parserDefaults m).min_samples = 5 ∧ (parserDefaults m).epochs = 10 ∧
      (parserDefaults m).batch = 128) ∧
    (∀ (args : Args) (env : Env) (q : Rat),
      run { args with delta := q } env = run args env) := by
  constructor
  · intro m
    exact ⟨rfl, rfl, rfl, rfl, rfl, rfl, rfl, rfl, rfl⟩
  · intro args env q
    rfl

/-- The initial score column has one entry per target event. -/
theorem scoreInit_length (n : Nat) : (scoreInit n).length = n := by
  simp [scoreInit]

/-- Every entry of the initial score column is the sentinel `-4`. -/
theorem scoreInit_mem (n : Nat) (x : Int) (h : x ∈ scoreInit n) : x = -4 := by
  simp only [scoreInit, List.mem_map, List.mem_replicate] at h
  obtain ⟨z, ⟨-, rfl⟩, rfl⟩ := h
  rfl

/-- The only interpreter fit sections B-E can emit is the one on the data at
hand. -/
theorem fitInterp_mem_modelPhase (args : Args) (env : Env) (data : Option SeqData)
    (f : InterpFit) (h : Step.fitInterpreter f ∈ (modelPhase args env data).trace) :
    ∃ d, data = some d ∧ f = interpFitOf args d := by
  rcases data with _ | d
  · rcases he : args.events with _ | n <;> simp [modelPhase, he] at h
  · refine ⟨d, rfl, ?_⟩
    simp only [modelPhase, List.append_assoc, List.mem_append, List.mem_cons,
      List.mem_singleton, List.not_mem_nil, mem_fitBuilderPiece, mem_saveBuilderPiece,
      mem_loadBuilderPiece, mem_fitInterpPiece, mem_saveInterpPiece,
      mem_loadInterpPiece, mem_autoPiece] at h
    simp at h
    exact h.2

/-- C7: every `Interpreter.fit` call the driver ever issues carries a score
column with exactly one entry per target event (`y`, the reshaped events),
every entry equal to the strongly-negative sentinel `-4`. -/
theorem interpreter_fit_score_sentinel (args : Args) (env : Env) (f : InterpFit)
    (h : Step.fitInterpreter f ∈ (run args env).trace) :
    f.score.length = f.y.length ∧ ∀ x ∈ f.score, x = -4 := by
  have hok := seqPhase_ok args env
  obtain ⟨d, hf⟩ : ∃ d, f = interpFitOf args d := by
    cases hsp : seqPhase args env with
    | inl r =>
      rw [hsp] at hok
      simp only [run, hsp] at h
      have := hok.1 _ h
      simp [isModelStep] at this
    | inr v =>
      obtain ⟨tr, data⟩ := v
      rw [hsp] at hok
      simp only [run, hsp] at h
      by_cases hm : args.mode = Mode.sequence
      · rw [if_pos hm] at h
        rcases data with _ | d
        · exact absurd (hok _ h) (by simp [isModelStep])
        · simp only [List.mem_append, List.mem_singleton] at h
          rcases h with h | h
          · exact absurd (hok _ h) (by simp [isModelStep])
          · cases h
      · rw [if_neg hm] at h
        simp only [List.mem_append] at h
        rcases h with h | h
        · exact absurd (hok _ h) (by simp [isModelStep])
        · obtain ⟨d, -, hfd⟩ := fitInterp_mem_modelPhase args env data f h
          exact ⟨d, hfd⟩
  subst hf
  refine ⟨?_, ?_⟩
  · simp [interpFitOf, scoreInit_length]
  · intro x hx
    exact scoreInit_mem _ x hx

/-- C7 at a concrete input: the score the train run hands to
`interpreter.fit` is the all-`-4` column with one entry per event. -/
theorem interpreter_fit_score_sentinel_witness :
    (interpFitOf argsTrainCsv dataA).score.length =
      (interpFitOf argsTrainCsv dataA).y.length ∧
    ((interpFitOf argsTrainCsv dataA).score.all fun x => x == -4) = true := by
  have h := interpreter_fit_score_sentinel argsTrainCsv envEx
    (interpFitOf argsTrainCsv dataA) (by decide)
  exact ⟨h.1, List.all_eq_true.mpr fun x hx => by simp [h.2 x hx]⟩

/-- Concrete invocation supplying both inputs:
`deepcase train --csv alerts.csv --txt alerts.txt`. -/
def argsBoth : Args :=
  { parserDefaults Mode.train with csv := some "alerts.csv", txt := some "alerts.txt" }

/-- C8: supplying both `--csv` and `--txt` raises
`ValueError("Please specify EITHER --csv OR --txt.")` before any file is
read or any preprocessing, training or clustering takes place: the trace
holds nothing but the `Preprocessor` construction. -/
theorem csv_txt_mutually_exclusive (args : Args) (env : Env)
    (hc : args.csv.isSome = true) (ht : args.txt.isSome = true) :
    (run args env).outcome = Outcome.valueError "Please specify EITHER --csv OR --txt." ∧
    (run args env).trace = [Step.constructPreprocessor args.length args.timeout] ∧
    ∀ s ∈ (run args env).trace, isReadStep s = false ∧ isFitStep s = false := by
  have hb : (args.csv.isSome && args.txt.isSome) = true := by simp [hc, ht]
  refine ⟨?_, ?_, ?_⟩
  · simp [run, seqPhase, hb]
  · simp [run, seqPhase, hb]
  · intro s hs
    simp only [run, seqPhase, hb] at hs
    simp only [Bool.and_self, ite_true, List.mem_singleton] at hs
    subst hs
    exact ⟨rfl, rfl⟩

/-- C8 at a concrete input. -/
theorem csv_txt_mutually_exclusive_witness :
    (run argsBoth envEx).outcome =
      Outcome.valueError "Please specify EITHER --csv OR --txt." ∧
    (run argsBoth envEx).trace = [Step.constructPreprocessor 10 86400] := by
  have h := csv_txt_mutually_exclusive argsBoth envEx rfl rfl
  exact ⟨h.1, h.2.1⟩

/-- C6: in sequence mode the driver hands the rendering function exactly the
five values `(context, events, label, mapping, NO_EVENT)` — the components
of the data produced by section A (read from `--csv`/`--txt`, overridden by
`--load-sequences` when given) and the preprocessor's `NO_EVENT` sentinel —
then exits. -/
theorem sequence_mode_passes_values_verbatim (args : Args) (env : Env)
    (tr : List Step) (d : SeqData)
    (hm : args.mode = Mode.sequence)
    (h : seqPhase args env = Sum.inr (tr, some d)) :
    (run args env).trace =
      tr ++ [Step.showSequences d.context d.events d.label d.mapping env.noEvent] ∧
    (run args env).outcome = Outcome.exited ∧
    (∀ p, truthyStr args.load_sequences = some p → d = env.loadSeq p) ∧
    (truthyStr args.load_sequences = none →
      (∀ p, truthyStr args.csv = some p → d = env.csvRead p) ∧
      (truthyStr args.csv = none →
        ∀ p, truthyStr args.txt = some p → d = env.txtRead p)) := by
  have hd := seqPhase_data args env
  rw [h] at hd
  refine ⟨by simp [run, h, hm], by simp [run, h, hm], ?_, ?_⟩
  · intro p hp
    have := hd.1 p hp
    exact Option.some.inj this
  · intro hnone
    have h2 := hd.2.1 hnone
    refine ⟨fun p hp => Option.some.inj (h2.1 p hp),
            fun hcn p hp => Option.some.inj ((h2.2 hcn).1 p hp)⟩

/-- Concrete sequence-mode invocation with a read and a load:
`deepcase sequence --csv alerts.csv --load-sequences seqs.pt`. -/
def argsSeqLoad : Args :=
  { parserDefaults Mode.sequence with
      csv := some "alerts.csv", load_sequences := some "seqs.pt" }

/-- C6 at a concrete input: the report receives exactly the loaded data's
four components plus `NO_EVENT`. -/
theorem sequence_mode_passes_values_verbatim_witness :
    (run argsSeqLoad envEx).trace =
      [Step.constructPreprocessor 10 86400, Step.readCSV "alerts.csv",
       Step.loadSequences "seqs.pt"] ++
      [Step.showSequences dataL.context dataL.events dataL.label dataL.mapping
        envEx.noEvent] ∧
    (run argsSeqLoad envEx).outcome = Outcome.exited := by
  have h := sequence_mode_passes_values_verbatim argsSeqLoad envEx
    [Step.constructPreprocessor 10 86400, Step.readCSV "alerts.csv",
     Step.loadSequences "seqs.pt"] dataL rfl (by decide)
  exact ⟨h.1, h.2.1⟩

/-- The only builder construction sections B-E can emit is the one with the
resolved event count and device. -/
theorem constructBuilder_mem_modelPhase (args : Args) (env : Env)
    (data : Option SeqData) (b : ContextBuilderState)
    (h : Step.constructBuilder b ∈ (modelPhase args env data).trace) :
    ∃ d, data = some d ∧
      b = builderInit args (nEventsOf args d) (resolveDevice args env) := by
  rcases data with _ | d
  · rcases he : args.events with _ | n <;> simp [modelPhase, he] at h
  · refine ⟨d, rfl, ?_⟩
    simp only [modelPhase, List.append_assoc, List.mem_append, List.mem_cons,
      List.mem_singleton, List.not_mem_nil, mem_fitBuilderPiece, mem_saveBuilderPiece,
      mem_loadBuilderPiece, mem_fitInterpPiece, mem_saveInterpPiece,
      mem_loadInterpPiece, mem_autoPiece] at h
    simp at h
    exact h

/-- The only interpreter construction sections B-E can emit is the one with
the resolved event count, around the builder in use. -/
theorem constructInterpreter_mem_modelPhase (args : Args) (env : Env)
    (data : Option SeqData) (i : InterpreterState)
    (h : Step.constructInterpreter i ∈ (modelPhase args env data).trace) :
    ∃ d, data = some d ∧
      i = interpInit args
        (usedBuilder args env (nEventsOf args d) (resolveDevice args env) d)
        (nEventsOf args d) := by
  rcases data with _ | d
  · rcases he : args.events with _ | n <;> simp [modelPhase, he] at h
  · refine ⟨d, rfl, ?_⟩
    simp only [modelPhase, List.append_assoc, List.mem_append, List.mem_cons,
      List.mem_singleton, List.not_mem_nil, mem_fitBuilderPiece, mem_saveBuilderPiece,
      mem_loadBuilderPiece, mem_fitInterpPiece, mem_saveInterpPiece,
      mem_loadInterpPiece, mem_autoPiece] at h
    simp at h
    exact h

/-- C10: the model dimensions come from `--events`: on every finished run
there is a data value `d` (the sequences in use) such that every constructed
`ContextBuilder` has `input_size = output_size = nEventsOf args d`, every
constructed `Interpreter` has `features = nEventsOf args d`, and
`nEventsOf args d` is `len(mapping)` when `--events` was left at `'auto'`
and the supplied integer otherwise. -/
theorem auto_events_dimensions (args : Args) (env : Env)
    (hf : (run args env).outcome = Outcome.finished) :
    ∃ d : SeqData,
      (run args env).finalData = some d ∧
      (∀ b, Step.constructBuilder b ∈ (run args env).trace →
        b.input_size = nEventsOf args d ∧ b.output_size = nEventsOf args d) ∧
      (∀ i, Step.constructInterpreter i ∈ (run args env).trace →
        i.features = nEventsOf args d) ∧
      (args.events = none → nEventsOf args d = d.mapping.length) ∧
      (∀ n, args.events = some n → nEventsOf args d = n) := by
  have hok := seqPhase_ok args env
  cases hsp : seqPhase args env with
  | inl r =>
    rw [hsp] at hok
    simp only [run, hsp] at hf
    exact absurd hf hok.2
  | inr v =>
    obtain ⟨tr, data⟩ := v
    rw [hsp] at hok
    by_cases hm : args.mode = Mode.sequence
    · rcases data with _ | d <;> simp [run, hsp, hm] at hf
    · simp only [run, hsp, hm, ite_false] at hf ⊢
      rcases data with _ | d
      · exfalso
        rcases he : args.events with _ | n <;> simp [modelPhase, he] at hf
      · refine ⟨d, by simp [modelPhase], ?_, ?_, ?_, ?_⟩
        · intro b hb
          simp only [List.mem_append] at hb
          rcases hb with hb | hb
          · exact absurd (hok _ hb) (by simp [isModelStep])
          · obtain ⟨d', hd', rfl⟩ :=
              constructBuilder_mem_modelPhase args env (some d) b hb
            obtain rfl : d' = d := by injection hd' with h; exact h.symm
            exact ⟨rfl, rfl⟩
        · intro i hi
          simp only [List.mem_append] at hi
          rcases hi with hi | hi
          · exact absurd (hok _ hi) (by simp [isModelStep])
          · obtain ⟨d', hd', rfl⟩ :=
              constructInterpreter_mem_modelPhase args env (some d) i hi
            obtain rfl : d' = d := by injection hd' with h; exact h.symm
            rfl
        · intro he
          simp [nEventsOf, he]
        · intro n he
          simp [nEventsOf, he]

/-- C10 at a concrete input: with `--events` left at `'auto'`, the train run
sizes both models to `len(mapping)`. -/
theorem auto_events_dimensions_witness :
    ∃ d : SeqData,
      (run argsTrainCsv envEx).finalData = some d ∧
      (∀ b, Step.constructBuilder b ∈ (run argsTrainCsv envEx).trace →
        b.input_size = nEventsOf argsTrainCsv d ∧
        b.output_size = nEventsOf argsTrainCsv d) ∧
      (∀ i, Step.constructInterpreter i ∈ (run argsTrainCsv envEx).trace →
        i.features = nEventsOf argsTrainCsv d) ∧
      (argsTrainCsv.events = none → nEventsOf argsTrainCsv d = d.mapping.length) ∧
      (∀ n, argsTrainCsv.events = some n → nEventsOf argsTrainCsv d = n) :=
  auto_events_dimensions argsTrainCsv envEx (by decide)

/-- C9: saves happen before loads and loaded state wins, for each of the
three component pairs.  When `--save-sequences` and `--load-sequences` are
both given (with a CSV input available), the sequences written to the save
path are the freshly read ones while the data handed to the rest of the run
is the loaded one.  When `--save-builder` and `--load-builder` are both
given on a finished run, the builder written to the save path is the
freshly constructed (and, in train mode, fitted) one, the save step
precedes the load step in the trace, and the builder used afterwards — by
the `Interpreter` construction and held at the end of the run — is the
loaded one.  Likewise for the interpreter pair. -/
theorem save_before_load_precedence (args : Args) (env : Env) :
    (∀ c w v, args.txt = none →
      truthyStr args.csv = some c →
      truthyStr args.save_sequences = some w →
      truthyStr args.load_sequences = some v →
      ∃ tr, seqPhase args env = Sum.inr (tr, some (env.loadSeq v)) ∧
        Step.saveSequences w (env.csvRead c) ∈ tr) ∧
    (∀ p3 p4, truthyStr args.save_builder = some p3 →
      truthyStr args.load_builder = some p4 →
      (run args env).outcome = Outcome.finished →
      ∃ d t1 t2, (run args env).finalData = some d ∧
        (run args env).trace =
          t1 ++ [Step.saveBuilder p3
                   (freshBuilder args (nEventsOf args d) (resolveDevice args env) d),
                 Step.loadBuilder p4] ++ t2 ∧
        (run args env).finalBuilder =
          some (env.loadBuilderF p4 (resolveDevice args env)) ∧
        Step.constructInterpreter
          (interpInit args (env.loadBuilderF p4 (resolveDevice args env))
            (nEventsOf args d)) ∈ (run args env).trace) ∧
    (∀ p5 p6, truthyStr args.save_interpreter = some p5 →
      truthyStr args.load_interpreter = some p6 →
      (run args env).outcome = Outcome.finished →
      ∃ d b t3 t4, (run args env).finalData = some d ∧
        (run args env).finalBuilder = some b ∧
        (run args env).trace =
          t3 ++ [Step.saveInterpreter p5 (freshInterp args b (nEventsOf args d) d),
                 Step.loadInterpreter p6] ++ t4 ∧
        (run args env).finalInterpreter = some (env.loadInterpF p6 b)) := by
  refine ⟨?_, ?_, ?_⟩
  · intro c w v htxt hc hw hv
    have hb : (args.csv.isSome && args.txt.isSome) = false := by simp [htxt]
    refine ⟨[Step.constructPreprocessor args.length args.timeout,
             Step.readCSV c, Step.saveSequences w (env.csvRead c),
             Step.loadSequences v], ?_, by simp⟩
    simp [seqPhase, hb, hc, hw, hv]
  · intro p3 p4 hsb hlb hf
    have hok := seqPhase_ok args env
    cases hsp : seqPhase args env with
    | inl r =>
      rw [hsp] at hok
      simp only [run, hsp] at hf
      exact absurd hf hok.2
    | inr v' =>
      obtain ⟨tr, data⟩ := v'
      by_cases hm : args.mode = Mode.sequence
      · rcases data with _ | d <;> simp [run, hsp, hm] at hf
      · simp only [run, hsp, hm, ite_false] at hf ⊢
        rcases data with _ | d
        · exfalso
          rcases he : args.events with _ | n <;> simp [modelPhase, he] at hf
        · refine ⟨d, ?_, ?_, ?_⟩
          · exact tr ++
              [Step.castTensors (resolveDevice args env),
               Step.constructBuilder (builderInit args (nEventsOf args d)
                 (resolveDevice args env))] ++
              fitBuilderPiece args d
          · exact [Step.constructInterpreter
                (interpInit args (env.loadBuilderF p4 (resolveDevice args env))
                  (nEventsOf args d))] ++
              fitInterpPiece args d ++
              saveInterpPiece args
                (freshInterp args (env.loadBuilderF p4 (resolveDevice args env))
                  (nEventsOf args d) d) ++
              loadInterpPiece args ++
              autoPiece args
          · simp only [modelPhase, usedBuilder, saveBuilderPiece, loadBuilderPiece,
              hsb, hlb]
            refine ⟨by trivial, by simp, by trivial, by simp⟩
  · intro p5 p6 hsi hli hf
    have hok := seqPhase_ok args env
    cases hsp : seqPhase args env with
    | inl r =>
      rw [hsp] at hok
      simp only [run, hsp] at hf
      exact absurd hf hok.2
    | inr v' =>
      obtain ⟨tr, data⟩ := v'
      by_cases hm : args.mode = Mode.sequence
      · rcases data with _ | d <;> simp [run, hsp, hm] at hf
      · simp only [run, hsp, hm, ite_false] at hf ⊢
        rcases data with _ | d
        · exfalso
          rcases he : args.events with _ | n <;> simp [modelPhase, he] at hf
        · refine ⟨d,
            usedBuilder args env (nEventsOf args d) (resolveDevice args env) d,
            ?_, ?_, ?_⟩
          · exact tr ++
              [Step.castTensors (resolveDevice args env),
               Step.constructBuilder (builderInit args (nEventsOf args d)
                 (resolveDevice args env))] ++
              fitBuilderPiece args d ++
              saveBuilderPiece args
                (freshBuilder args (nEventsOf args d) (resolveDevice args env) d) ++
              loadBuilderPiece args ++
              [Step.constructInterpreter
                (interpInit args
                  (usedBuilder args env (nEventsOf args d) (resolveDevice args env) d)
                  (nEventsOf args d))] ++
              fitInterpPiece args d
          · exact autoPiece args
          · simp only [modelPhase, usedInterp, saveInterpPiece, loadInterpPiece,
              hsi, hli]
            refine ⟨by trivial, by trivial, by simp, by trivial⟩

/-- Concrete train invocation with every save and load option supplied. -/
def argsFull : Args :=
  { parserDefaults Mode.train with
      csv := some "alerts.csv"
      save_sequences := some "s.pt", load_sequences := some "l.pt"
      save_builder := some "sb.pt", load_builder := some "lb.pt"
      save_interpreter := some "si.pt", load_interpreter := some "li.pt" }

/-- C9 at a concrete input: with all three save/load pairs supplied, each
saved state is the fresh one and each loaded state is the one used
afterwards. -/
theorem save_before_load_precedence_witness :
    (∃ tr, seqPhase argsFull envEx = Sum.inr (tr, some (envEx.loadSeq "l.pt")) ∧
      Step.saveSequences "s.pt" (envEx.csvRead "alerts.csv") ∈ tr) ∧
    (∃ d t1 t2, (run argsFull envEx).finalData = some d ∧
      (run argsFull envEx).trace =
        t1 ++ [Step.saveBuilder "sb.pt"
                 (freshBuilder argsFull (nEventsOf argsFull d)
                   (resolveDevice argsFull envEx) d),
               Step.loadBuilder "lb.pt"] ++ t2 ∧
      (run argsFull envEx).finalBuilder =
        some (envEx.loadBuilderF "lb.pt" (resolveDevice argsFull envEx)) ∧
      Step.constructInterpreter
        (interpInit argsFull (envEx.loadBuilderF "lb.pt" (resolveDevice argsFull envEx))
          (nEventsOf argsFull d)) ∈ (run argsFull envEx).trace) ∧
    (∃ d b t3 t4, (run argsFull envEx).finalData = some d ∧
      (run argsFull envEx).finalBuilder = some b ∧
      (run argsFull envEx).trace =
        t3 ++ [Step.saveInterpreter "si.pt"
                 (freshInterp argsFull b (nEventsOf argsFull d) d),
               Step.loadInterpreter "li.pt"] ++ t4 ∧
      (run argsFull envEx).finalInterpreter = some (envEx.loadInterpF "li.pt" b)) := by
  have h := save_before_load_precedence argsFull envEx
  exact ⟨h.1 "alerts.csv" "s.pt" "l.pt" rfl (by decide) (by decide) (by decide),
         h.2.1 "sb.pt" "lb.pt" (by decide) (by decide) (by decide),
         h.2.2 "si.pt" "li.pt" (by decide) (by decide) (by decide)⟩
end DeepCASE
